import Mathlib

/-!
Verification development for the chat-session state machine of a
retrieval-augmented chat service (`app/services/chat_flow.py`,
`app/services/chat_checkpointer.py`, `app/services/llm.py`,
`app/api/chat.py`).

The Python code is shallowly embedded: the mutable `ChatState` dict becomes a
Lean structure, database tables become association lists inside a
`ServerState`, and every external effect (the similarity search, the LLM call,
each `commit`) becomes an explicit oracle parameter recording the outcome that
call would have had.  Control flow — the `try/except` ladders, the early
returns, the blanket exception handlers — is reproduced branch for branch.
-/

namespace RagChat

/-- Role tag of a serialized chat message (`HumanMessage` / `AIMessage` in
`_serialize_message`). -/
inductive Role
  | human
  | ai
deriving DecidableEq, Repr

/-- A serialized chat message, as stored in `internal_history`:
`{"type": ..., "content": ...}`. -/
structure Msg where
  role : Role
  content : String
deriving DecidableEq, Repr

/-- A serialized retrieved document chunk, as stored in `current_context`:
`{"page_content": ..., "metadata": ...}`.  Metadata is a free-form string map
(`cmetadata` carries `user_id`, `source`, ...). -/
structure Doc where
  page_content : String
  metadata : List (String × String)
deriving DecidableEq, Repr

/-- The `retriever_params` dict `{"k": 4, "score_threshold": 0.5}` built in
`ChatFlow.get_initial_state`. -/
structure RetrieverParams where
  k : Nat
  score_threshold : ℚ
deriving DecidableEq, Repr

/-- The `ChatState` TypedDict of `app/services/chat_flow.py`. -/
structure ChatState where
  current_input : String
  internal_history : List Msg
  current_output : Option String
  current_context : Option (List Doc)
  session_id : String
  retriever_params : RetrieverParams
  conversation_count : Nat
  user_id : String
deriving DecidableEq, Repr

/-- A row of the `langchain_pg_embedding` table: an indexed vector, scoped by
the `user_id` key of its `cmetadata`, with the stored vector itself (whose
length is its dimensionality). -/
structure EmbRow where
  user_id : String
  document : String
  embedding : List ℚ
deriving DecidableEq, Repr

/-- Exception classes distinguished by the handlers in `chat_flow.py`:
`SQLAlchemyError` is caught separately in `_answer_with_rag`; everything else
falls to the generic `except Exception` arms. -/
inductive PyErr
  | sqlalchemy
  | other
deriving DecidableEq, Repr

/-- Outcome of the external similarity search
(`retriever.aget_relevant_documents`): documents, an exception whose string
contains "different vector dimensions", or any other exception. -/
inductive SearchResult
  | ok (docs : List Doc)
  | dimMismatch
  | err
deriving DecidableEq, Repr

/-- Oracles for the external effects of `ChatFlow._filter_documents`: whether
`get_vector_store` succeeds, the result of the similarity search as a function
of the requested `k`, and whether the `DELETE`+`commit` in the
dimension-mismatch handler succeeds. -/
structure RetrievalEnv where
  getStoreOk : Bool
  search : Nat → SearchResult
  deleteCommitOk : Bool

/-- The user's `UserModelPreference` row. -/
structure Prefs where
  provider : String
  embedding_model : String
  chat_model : String
deriving DecidableEq, Repr

/-- Oracles for the external effects of `ChatFlow._answer_with_rag`: the
preference `SELECT` (which can raise `SQLAlchemyError`), its result, whether
`get_chat_model` succeeds, the LLM call's outcome (`response.content` or an
exception), the `commit` inside `_answer_with_rag`, and the final `commit`
of `ChatFlow.process`. -/
structure GenEnv where
  prefsQueryOk : Bool
  preferences : Option Prefs
  getChatModelOk : Bool
  llm : Except Unit String
  commitOk : Bool
  outerCommitOk : Bool

/-- Embeds `SELECT COUNT(*) FROM langchain_pg_embedding WHERE cmetadata->>'user_id' = :user_id`. -/
def chunkCount (store : List EmbRow) (uid : String) : Nat :=
  (store.filter (fun r => r.user_id == uid)).length

/-- The advisory message written by the dimension-mismatch handler in
`ChatFlow._filter_documents`. -/
def dimensionAdvisory : String :=
  "I noticed you changed your AI provider. Please re-upload your documents " ++
  "to create new embeddings compatible with the current provider."

/-- The literal `k` in the `search_kwargs` of `_filter_documents`'s retriever
configuration. -/
def searchKwargsK : Nat := 5

/-- Embeds `ChatFlow._filter_documents`.  Returns the (committed) vector store
contents together with either the updated state or the exception that
propagates out.  Branches, in source order: the zero-chunk fast path; the
`get_vector_store` call; the similarity search with `k = 5`; the
dimension-mismatch handler (purge + advisory); re-raise of any other
search error. -/
def filter_documents (env : RetrievalEnv) (store : List EmbRow) (s : ChatState) :
    List EmbRow × Except PyErr ChatState :=
  if chunkCount store s.user_id == 0 then
    (store, .ok { s with current_context := some [] })
  else if env.getStoreOk then
    match env.search searchKwargsK with
    | .ok docs => (store, .ok { s with current_context := some docs })
    | .dimMismatch =>
        if env.deleteCommitOk then
          ((store.filter (fun r => ¬ r.user_id == s.user_id)),
           .ok { s with
                  current_context := some []
                  current_output := some dimensionAdvisory })
        else (store, .error .sqlalchemy)
    | .err => (store, .error .other)
  else (store, .error .other)

/-- The apology substituted by the generic `except Exception` arm of
`ChatFlow._answer_with_rag`. -/
def apologyMsg : String :=
  "I apologize, but I encountered an error processing your request."

/-- Embeds `ChatFlow._answer_with_rag`.  A `SQLAlchemyError` (preference query or the
commit) re-raises; any other exception (missing preferences, `get_chat_model`
failure, LLM failure) is swallowed by the generic handler, which substitutes
the apology and returns without touching history or the count.  On LLM
success the output is set, the count incremented, and the human/ai pair
appended. -/
def answer_with_rag (env : GenEnv) (s : ChatState) : Except PyErr ChatState :=
  if env.prefsQueryOk then
    match env.preferences with
    | none => .ok { s with current_output := some apologyMsg }
    | some _ =>
      if env.getChatModelOk then
        match env.llm with
        | .error _ => .ok { s with current_output := some apologyMsg }
        | .ok txt =>
            if env.commitOk then
              .ok { s with
                     current_output := some txt
                     conversation_count := s.conversation_count + 1
                     internal_history := s.internal_history ++
                       [⟨Role.human, s.current_input⟩, ⟨Role.ai, txt⟩] }
            else .error .sqlalchemy
      else .ok { s with current_output := some apologyMsg }
  else .error .sqlalchemy

/-- Embeds `ChatFlow.process`: `_filter_documents`, then — unconditionally —
`_answer_with_rag`, then a final `commit`.  Any exception re-raises; the
vector-store component reflects whatever the stage functions committed before
the exception. -/
def process (renv : RetrievalEnv) (genv : GenEnv) (store : List EmbRow) (s : ChatState) :
    List EmbRow × Except PyErr ChatState :=
  match filter_documents renv store s with
  | (store', .error e) => (store', .error e)
  | (store', .ok s') =>
      match answer_with_rag genv s' with
      | .error e => (store', .error e)
      | .ok s'' =>
          if genv.outerCommitOk then (store', .ok s'') else (store', .error .sqlalchemy)

/-- Embeds `ChatFlow.get_initial_state`. -/
def get_initial_state (session_id : String) (user_id : String) : ChatState :=
  { current_input := ""
    internal_history := []
    current_output := none
    current_context := none
    session_id := session_id
    retriever_params := { k := 4, score_threshold := 1/2 }
    conversation_count := 0
    user_id := user_id }

/-- Embeds `get_chat_model` of `app/services/llm.py`, abstracted over the two
database effects: the API-key fetch (raises when absent) and the preference
`SELECT`.  The returned configuration records the provider and the model name
actually passed to the provider constructor; for `"google"` the name is given
the `models/` prefix when missing, for `"openai"` it is used as-is. -/
structure ChatModelCfg where
  provider : String
  model : String
deriving DecidableEq, Repr

def get_chat_model (apiKeyOk : Bool) (prefs : Option Prefs) (provider : String) :
    Except String ChatModelCfg :=
  if apiKeyOk then
    match prefs with
    | none => .error "User model preferences not found"
    | some p =>
      if provider == "openai" then
        .ok { provider := "openai", model := p.chat_model }
      else if provider == "google" then
        .ok { provider := "google"
              model := if p.chat_model.startsWith "models/" then p.chat_model
                       else "models/" ++ p.chat_model }
      else .error ("Unsupported provider: " ++ provider)
  else .error "No API key found"

/-- Lookup in an association list keyed by strings (a SQL
`SELECT ... WHERE key = :key` returning at most one row, or a Python
`dict.get`). -/
def lookupKey {α : Type} (m : List (String × α)) (k : String) : Option α :=
  (m.find? (fun p => p.1 == k)).map (fun p => p.2)

/-- Upsert into an association list keyed by strings (SQLAlchemy `merge` on a
primary key, or `INSERT ... ON CONFLICT DO UPDATE`). -/
def upsert {α : Type} (m : List (String × α)) (k : String) (v : α) :
    List (String × α) :=
  if (m.find? (fun p => p.1 == k)).isSome then
    m.map (fun p => if p.1 == k then (k, v) else p)
  else m ++ [(k, v)]

/-- The eight keys of the state document built by
`PostgresChatCheckpointer.save`, in source order. -/
def stateFields : List String :=
  ["current_input", "internal_history", "current_output", "current_context",
   "session_id", "retriever_params", "conversation_count", "user_id"]

/-- Embeds `PostgresChatCheckpointer.save` over an untyped state mapping (the Python
`Dict[str, Any]`, here an association list over an arbitrary value type).
It reads exactly the eight `stateFields` with `state["key"]` — a missing key
raises `KeyError`, modelled as `none` — builds the record from those eight
entries alone, and merges it into the table keyed by `session_id`. -/
def checkpointer_save {α : Type} (db : List (String × List (String × α)))
    (session_id : String) (state : List (String × α)) :
    Option (List (String × List (String × α))) :=
  match stateFields.mapM (fun k => (lookupKey state k).map (fun v => (k, v))) with
  | none => none
  | some entries => some (upsert db session_id entries)

/-- Embeds `PostgresChatCheckpointer.load`: return the stored state document for the
session, or `none`. -/
def checkpointer_load {α : Type} (db : List (String × List (String × α)))
    (session_id : String) : Option (List (String × α)) :=
  lookupKey db session_id

/-- The persistent server-side tables touched by the chat endpoint:
`chat_states` (via the checkpointer, holding the typed state), `chat_sessions`
(id → owner), `chat_messages` (session id → role-tagged message), and
`langchain_pg_embedding`. -/
structure ServerState where
  checkpoints : List (String × ChatState)
  sessions : List (String × String)
  messages : List (String × Msg)
  embStore : List EmbRow
deriving DecidableEq, Repr

/-- The authenticated requester as the endpoint sees it: id, whether
`model_preferences` is set, its provider, and whether
`get_api_key_for_provider` succeeds. -/
structure UserEnv where
  user_id : String
  has_preferences : Bool
  provider : String
  apiKeyOk : Bool

/-- Per-request oracles of the chat endpoint: the generated `uuid4` (when no
session id is supplied), the outcomes of the four commits the endpoint issues
itself, and the stage oracles for `ChatFlow.process`. -/
structure TurnEnv where
  freshId : String
  message : String
  sessionCommitOk : Bool
  userMsgCommitOk : Bool
  renv : RetrievalEnv
  genv : GenEnv
  aiMsgCommitOk : Bool
  saveOk : Bool

/-- One element of the `context` list of the endpoint's response
(`DocumentContext`): content, `metadata.get("source", "unknown")`, and the
metadata itself.  (`score` is a float and is omitted.) -/
structure DocumentContext where
  content : String
  source : String
  metadata : List (String × String)
deriving DecidableEq, Repr

/-- The endpoint's `ChatResponse`. -/
structure ChatResponseM where
  session_id : String
  response : Option String
  conversation_count : Nat
  context : List DocumentContext
deriving DecidableEq, Repr

/-- HTTP outcome of one call of the endpoint. -/
inductive ChatOutcome
  | ok (resp : ChatResponseM)
  | httpError (status : Nat)
deriving DecidableEq, Repr

/-- Embeds `[DocumentContext(...) for doc in (state.get("current_context") or [])]`. -/
def renderContext (ctx : Option (List Doc)) : List DocumentContext :=
  (ctx.getD []).map (fun d =>
    { content := d.page_content
      source := (lookupKey d.metadata "source").getD "unknown"
      metadata := d.metadata })

/-- The HTTP status the endpoint actually returns on every failure path.
Every `HTTPException` raised in the body of `chat` — including the 400s for
configuration, the 404 for an unknown session and the 403 for an ownership
mismatch — is caught by the blanket `except Exception` at the end of the
function, which re-raises `HTTP_500_INTERNAL_SERVER_ERROR` with the original
exception's string as detail.  The intended statuses never reach the client. -/
def wrappedErrorStatus : Nat := 500

/-- The `chat` endpoint of `app/api/chat.py`.  Returns the HTTP outcome and
the server state as left by the request's committed writes.  Mirrors the
source order: preference / provider / API-key validation; session resolution
(create with `uuid4`, or load via the checkpointer and check ownership);
commit of the human `ChatMessage`; `ChatFlow.process`; commit of the ai
`ChatMessage`; `checkpointer.save`; response construction.  Each failure is
converted to status 500 by the blanket handler (see `wrappedErrorStatus`),
and uncommitted writes of the failing step are rolled back. -/
def chat (u : UserEnv) (t : TurnEnv) (srv : ServerState) (input_session : Option String) :
    ChatOutcome × ServerState :=
  if u.has_preferences then
    if u.provider == "google" || u.provider == "openai" then
      if u.apiKeyOk then
        let resolved : Option (String × ChatState × ServerState) :=
          match input_session with
          | none =>
              if t.sessionCommitOk then
                some (t.freshId, get_initial_state t.freshId u.user_id,
                      { srv with sessions := srv.sessions ++ [(t.freshId, u.user_id)] })
              else none
          | some sid =>
              match lookupKey srv.checkpoints sid with
              | none => none
              | some st => if st.user_id == u.user_id then some (sid, st, srv) else none
        match resolved with
        | none => (.httpError wrappedErrorStatus, srv)
        | some (sid, st, srv1) =>
            if t.userMsgCommitOk then
              let srv2 := { srv1 with messages := srv1.messages ++ [(sid, Msg.mk Role.human t.message)] }
              match process t.renv t.genv srv2.embStore { st with current_input := t.message } with
              | (store', .error _) =>
                  (.httpError wrappedErrorStatus, { srv2 with embStore := store' })
              | (store', .ok st2) =>
                  let srv3 := { srv2 with embStore := store' }
                  if t.aiMsgCommitOk then
                    let srv4 := { srv3 with
                                   messages := srv3.messages ++
                                     [(sid, Msg.mk Role.ai (st2.current_output.getD ""))] }
                    if t.saveOk then
                      (.ok { session_id := sid
                             response := st2.current_output
                             conversation_count := st2.conversation_count
                             context := renderContext st2.current_context },
                       { srv4 with checkpoints := upsert srv4.checkpoints sid st2 })
                    else (.httpError wrappedErrorStatus, srv4)
                  else (.httpError wrappedErrorStatus, srv3)
            else (.httpError wrappedErrorStatus, srv1)
      else (.httpError wrappedErrorStatus, srv)
    else (.httpError wrappedErrorStatus, srv)
  else (.httpError wrappedErrorStatus, srv)

/-- A history that is a concatenation of human/ai pairs, in that order —
the shape `_answer_with_rag` maintains by always appending
`[HumanMessage, AIMessage]` together. -/
def alternatingPairs : List Msg → Bool
  | [] => true
  | [_] => false
  | m1 :: m2 :: rest =>
      m1.role == Role.human && m2.role == Role.ai && alternatingPairs rest

/-- The requester passes the endpoint's three validation gates. -/
def validUser (u : UserEnv) : Prop :=
  u.has_preferences = true ∧ (u.provider = "google" ∨ u.provider = "openai") ∧
    u.apiKeyOk = true

/-- Every external effect of one turn succeeds and the LLM call returns a
response: the conditions under which the turn "completes successfully" and the
human/ai exchange is recorded. -/
def TurnSuccess (t : TurnEnv) : Prop :=
  t.sessionCommitOk = true ∧ t.userMsgCommitOk = true ∧
  t.renv.getStoreOk = true ∧ t.renv.search searchKwargsK ≠ SearchResult.err ∧
  t.renv.deleteCommitOk = true ∧
  t.genv.prefsQueryOk = true ∧ t.genv.preferences.isSome = true ∧
  t.genv.getChatModelOk = true ∧ (∃ txt, t.genv.llm = Except.ok txt) ∧
  t.genv.commitOk = true ∧ t.genv.outerCommitOk = true ∧
  t.aiMsgCommitOk = true ∧ t.saveOk = true

/-- Fold a sequence of turn requests against one existing session through the
endpoint, threading the server state. -/
def runTurns (u : UserEnv) (sid : String) (ts : List TurnEnv) (srv : ServerState) :
    ServerState :=
  ts.foldl (fun srv t => (chat u t srv (some sid)).2) srv

theorem alternatingPairs_append_pair (a b : String) :
    ∀ l : List Msg,
      alternatingPairs (l ++ [Msg.mk Role.human a, Msg.mk Role.ai b]) =
        alternatingPairs l := by
  intro l
  induction l using alternatingPairs.induct with
  | case1 => simp [alternatingPairs]
  | case2 m => simp [alternatingPairs]
  | case3 m1 m2 rest ih => simp [alternatingPairs, ih]

theorem lookupKey_upsert_self {α : Type} (m : List (String × α)) (k : String) (v : α) :
    lookupKey (upsert m k v) k = some v := by
  unfold upsert
  split
  · case isTrue h =>
    induction m with
    | nil => simp at h
    | cons p t ih =>
      by_cases hp : p.1 == k
      · simp [lookupKey, List.find?, hp]
      · simp only [List.map_cons, if_neg (by simpa using hp)]
        rw [show (if p.1 == k then (k, v) else p) = p by simp [hp]]
        simp only [lookupKey, List.find?]
        rw [show (p.1 == k) = false by simpa using hp]
        apply ih
        simpa [List.find?, hp] using h
  · case isFalse h =>
    have hnone : m.find? (fun p => p.1 == k) = none := by
      cases hf : m.find? (fun p => p.1 == k) with
      | none => rfl
      | some p => rw [hf] at h; simp at h
    simp only [lookupKey]
    rw [List.find?_append, hnone]
    simp [List.find?]

theorem lookupKey_replace_ne {α : Type} (m : List (String × α)) (k k' : String) (v : α)
    (h : k' ≠ k) :
    lookupKey (m.map (fun p => if p.1 == k then (k, v) else p)) k' = lookupKey m k' := by
  induction m with
  | nil => rfl
  | cons p tl ih =>
      by_cases hp : (p.1 == k) = true
      · have hpk : p.1 = k := by simpa using hp
        have hkk' : (k == k') = false := by simpa using (Ne.symm h)
        have hpk' : (p.1 == k') = false := by rw [hpk]; exact hkk'
        simp only [List.map_cons, if_pos hp, lookupKey, List.find?]
        rw [hkk', hpk']
        exact ih
      · simp only [List.map_cons, if_neg hp, lookupKey, List.find?]
        cases hq : (p.1 == k') with
        | true => rfl
        | false => exact ih

theorem lookupKey_upsert_ne {α : Type} (m : List (String × α)) (k k' : String) (v : α)
    (h : k' ≠ k) :
    lookupKey (upsert m k v) k' = lookupKey m k' := by
  unfold upsert
  split
  · exact lookupKey_replace_ne m k k' v h
  · simp only [lookupKey, List.find?_append]
    have : List.find? (fun p => p.1 == k') [(k, v)] = none := by
      simp [List.find?, show (k == k') = false by simpa using (Ne.symm h)]
    rw [this]
    cases List.find? (fun p => p.1 == k') m <;> rfl

theorem lookupKey_eq_none_of_not_mem_keys {α : Type} (m : List (String × α)) (k : String)
    (h : k ∉ m.map Prod.fst) : lookupKey m k = none := by
  induction m with
  | nil => rfl
  | cons p tl ih =>
      simp only [List.map_cons, List.mem_cons, not_or] at h
      have hp : (p.1 == k) = false := by
        simp only [beq_eq_false_iff_ne]
        exact fun e => h.1 e.symm
      simp only [lookupKey, List.find?]
      rw [hp]
      exact ih h.2

/-- Lemma: `_filter_documents` never touches the history, the count, the input, the
ids or the retriever parameters: it only writes `current_context` (and, on the
mismatch path, `current_output`). -/
theorem filter_documents_ok_preserves (env : RetrievalEnv) (store : List EmbRow)
    (s : ChatState) (store' : List EmbRow) (s' : ChatState)
    (h : filter_documents env store s = (store', Except.ok s')) :
    s'.internal_history = s.internal_history ∧
    s'.conversation_count = s.conversation_count ∧
    s'.user_id = s.user_id ∧
    s'.current_input = s.current_input ∧
    s'.session_id = s.session_id ∧
    s'.retriever_params = s.retriever_params := by
  unfold filter_documents at h
  split at h
  · obtain ⟨h1, h2⟩ := Prod.mk.injEq .. ▸ h
    cases h2
    simp
  · split at h
    · split at h
      · obtain ⟨h1, h2⟩ := Prod.mk.injEq .. ▸ h
        cases h2
        simp
      · split at h
        · obtain ⟨h1, h2⟩ := Prod.mk.injEq .. ▸ h
          cases h2
          simp
        · exact absurd (congrArg Prod.snd h) (by simp)
      · exact absurd (congrArg Prod.snd h) (by simp)
    · exact absurd (congrArg Prod.snd h) (by simp)

/-- With a live store, a search that does not raise a foreign error, and a
successful purge-commit, `_filter_documents` returns normally. -/
theorem filter_documents_success (env : RetrievalEnv) (store : List EmbRow)
    (s : ChatState) (h1 : env.getStoreOk = true)
    (h2 : env.search searchKwargsK ≠ SearchResult.err)
    (h3 : env.deleteCommitOk = true) :
    ∃ store' s', filter_documents env store s = (store', Except.ok s') := by
  by_cases hc : (chunkCount store s.user_id == 0) = true
  · exact ⟨store, { s with current_context := some [] },
      by simp [filter_documents, hc]⟩
  · cases hs : env.search searchKwargsK with
    | ok docs =>
        exact ⟨store, { s with current_context := some docs },
          by simp [filter_documents, hc, h1, hs]⟩
    | dimMismatch =>
        exact ⟨store.filter (fun r => ¬ r.user_id == s.user_id),
          { s with current_context := some []
                   current_output := some dimensionAdvisory },
          by simp [filter_documents, hc, h1, hs, h3]⟩
    | err => exact absurd hs h2

/-- On a successful LLM call (with preferences present and every commit
succeeding), `_answer_with_rag` records the exchange: output set to the
response, count incremented, the human/ai pair appended. -/
theorem answer_with_rag_success (env : GenEnv) (s : ChatState) (txt : String)
    (h1 : env.prefsQueryOk = true) (h2 : env.preferences.isSome = true)
    (h3 : env.getChatModelOk = true) (h4 : env.llm = Except.ok txt)
    (h5 : env.commitOk = true) :
    answer_with_rag env s = Except.ok
      { s with
         current_output := some txt
         conversation_count := s.conversation_count + 1
         internal_history := s.internal_history ++
           [Msg.mk Role.human s.current_input, Msg.mk Role.ai txt] } := by
  obtain ⟨p, hp⟩ := Option.isSome_iff_exists.mp h2
  unfold answer_with_rag
  rw [h1, hp, h3, h4, h5]
  simp

/-- A fully-successful `process` run: the returned state is the input state
with the new exchange recorded (and some context written). -/
theorem process_success (renv : RetrievalEnv) (genv : GenEnv) (store : List EmbRow)
    (s : ChatState) (txt : String)
    (hr1 : renv.getStoreOk = true) (hr2 : renv.search searchKwargsK ≠ SearchResult.err)
    (hr3 : renv.deleteCommitOk = true)
    (hg1 : genv.prefsQueryOk = true) (hg2 : genv.preferences.isSome = true)
    (hg3 : genv.getChatModelOk = true) (hg4 : genv.llm = Except.ok txt)
    (hg5 : genv.commitOk = true) (hg6 : genv.outerCommitOk = true) :
    ∃ store' s', process renv genv store s = (store', Except.ok s') ∧
      s'.internal_history = s.internal_history ++
        [Msg.mk Role.human s.current_input, Msg.mk Role.ai txt] ∧
      s'.conversation_count = s.conversation_count + 1 ∧
      s'.user_id = s.user_id ∧
      s'.current_output = some txt := by
  obtain ⟨store', s1, hf⟩ := filter_documents_success renv store s hr1 hr2 hr3
  obtain ⟨e1, e2, e3, e4, e5, e6⟩ := filter_documents_ok_preserves renv store s store' s1 hf
  refine ⟨store',
    { s1 with
       current_output := some txt
       conversation_count := s1.conversation_count + 1
       internal_history := s1.internal_history ++
         [Msg.mk Role.human s1.current_input, Msg.mk Role.ai txt] },
    ?_, ?_, ?_, ?_, ?_⟩
  · unfold process
    rw [hf]
    simp [answer_with_rag_success genv s1 txt hg1 hg2 hg3 hg4 hg5, hg6]
  · simp [e1, e4]
  · simp [e2]
  · simp [e3]
  · simp

/-- A fully-successful turn against an existing, owned session: the endpoint
responds 200 and the persisted state for that session is the prior state with
the new human/ai pair appended and the count incremented. -/
theorem chat_success_existing (u : UserEnv) (t : TurnEnv) (srv : ServerState)
    (sid : String) (s0 : ChatState)
    (hu : validUser u) (ht : TurnSuccess t)
    (hload : lookupKey srv.checkpoints sid = some s0)
    (hown : s0.user_id = u.user_id) :
    ∃ resp srv' s1 txt,
      chat u t srv (some sid) = (ChatOutcome.ok resp, srv') ∧
      t.genv.llm = Except.ok txt ∧
      lookupKey srv'.checkpoints sid = some s1 ∧
      s1.user_id = u.user_id ∧
      s1.internal_history = s0.internal_history ++
        [Msg.mk Role.human t.message, Msg.mk Role.ai txt] ∧
      s1.conversation_count = s0.conversation_count + 1 := by
  obtain ⟨hp, hprov, hkey⟩ := hu
  obtain ⟨h1, h2, h3, h4, h5, h6, h7, h8, ⟨txt, h9⟩, h10, h11, h12, h13⟩ := ht
  obtain ⟨store', s1, hproc, q1, q2, q3, q4⟩ :=
    process_success t.renv t.genv srv.embStore { s0 with current_input := t.message } txt
      h3 h4 h5 h6 h7 h8 h9 h10 h11
  have hprov' : (u.provider == "google" || u.provider == "openai") = true := by
    rcases hprov with h | h <;> simp [h]
  have hown' : (s0.user_id == u.user_id) = true := by simp [hown]
  refine ⟨{ session_id := sid
            response := s1.current_output
            conversation_count := s1.conversation_count
            context := renderContext s1.current_context },
          { checkpoints := upsert srv.checkpoints sid s1
            sessions := srv.sessions
            messages := (srv.messages ++ [(sid, Msg.mk Role.human t.message)]) ++
              [(sid, Msg.mk Role.ai (s1.current_output.getD ""))]
            embStore := store' },
          s1, txt, ?_, h9, ?_, ?_, ?_, ?_⟩
  · simp [chat, hp, hprov', hkey, h2, h12, h13, hload, hown', hproc]
  · exact lookupKey_upsert_self ..
  · rw [q3]; exact hown
  · simpa using q1
  · simpa using q2

/-- A fully-successful turn with no session id: the endpoint creates the
session under the generated fresh id and persists a state holding exactly the
one exchange, with count 1. -/
theorem chat_success_create (u : UserEnv) (t : TurnEnv) (srv : ServerState)
    (hu : validUser u) (ht : TurnSuccess t) :
    ∃ resp srv' s1 txt,
      chat u t srv none = (ChatOutcome.ok resp, srv') ∧
      t.genv.llm = Except.ok txt ∧
      resp.session_id = t.freshId ∧
      lookupKey srv'.checkpoints t.freshId = some s1 ∧
      s1.user_id = u.user_id ∧
      s1.internal_history = [Msg.mk Role.human t.message, Msg.mk Role.ai txt] ∧
      s1.conversation_count = 1 ∧
      (∀ k, k ≠ t.freshId → lookupKey srv'.checkpoints k = lookupKey srv.checkpoints k) := by
  obtain ⟨hp, hprov, hkey⟩ := hu
  obtain ⟨h1, h2, h3, h4, h5, h6, h7, h8, ⟨txt, h9⟩, h10, h11, h12, h13⟩ := ht
  obtain ⟨store', s1, hproc, q1, q2, q3, q4⟩ :=
    process_success t.renv t.genv srv.embStore
      { get_initial_state t.freshId u.user_id with current_input := t.message } txt
      h3 h4 h5 h6 h7 h8 h9 h10 h11
  have hprov' : (u.provider == "google" || u.provider == "openai") = true := by
    rcases hprov with h | h <;> simp [h]
  refine ⟨{ session_id := t.freshId
            response := s1.current_output
            conversation_count := s1.conversation_count
            context := renderContext s1.current_context },
          { checkpoints := upsert srv.checkpoints t.freshId s1
            sessions := srv.sessions ++ [(t.freshId, u.user_id)]
            messages := (srv.messages ++ [(t.freshId, Msg.mk Role.human t.message)]) ++
              [(t.freshId, Msg.mk Role.ai (s1.current_output.getD ""))]
            embStore := store' },
          s1, txt, ?_, h9, rfl, ?_, ?_, ?_, ?_, ?_⟩
  · simp [chat, hp, hprov', hkey, h1, h2, h12, h13, hproc]
  · exact lookupKey_upsert_self ..
  · rw [q3]; simp [get_initial_state]
  · rw [q1]; simp [get_initial_state]
  · rw [q2]; simp [get_initial_state]
  · intro k hk
    exact lookupKey_upsert_ne srv.checkpoints t.freshId k s1 hk

/-- Invariant carried across successful turns on one session: ownership,
`2N` paired history entries, count `N`. -/
theorem runTurns_invariant (u : UserEnv) (sid : String) (hu : validUser u) :
    ∀ ts : List TurnEnv, (∀ t ∈ ts, TurnSuccess t) →
    ∀ (srv : ServerState) (N : Nat) (s0 : ChatState),
      lookupKey srv.checkpoints sid = some s0 →
      s0.user_id = u.user_id →
      s0.internal_history.length = 2 * N →
      alternatingPairs s0.internal_history = true →
      s0.conversation_count = N →
      ∃ s, lookupKey (runTurns u sid ts srv).checkpoints sid = some s ∧
        s.user_id = u.user_id ∧
        s.internal_history.length = 2 * (N + ts.length) ∧
        alternatingPairs s.internal_history = true ∧
        s.conversation_count = N + ts.length := by
  intro ts
  induction ts with
  | nil =>
      intro _ srv N s0 hl ho hlen halt hc
      exact ⟨s0, by simpa [runTurns] using hl, ho, by simpa using hlen, halt,
        by simpa using hc⟩
  | cons t ts ih =>
      intro hall srv N s0 hl ho hlen halt hc
      obtain ⟨resp, srv', s1, txt, hchat, _, hl1, ho1, hh1, hc1⟩ :=
        chat_success_existing u t srv sid s0 hu (hall t (by simp)) hl ho
      have hstep : runTurns u sid (t :: ts) srv = runTurns u sid ts srv' := by
        simp [runTurns, hchat]
      rw [hstep]
      obtain ⟨s, a, b, c, d, e⟩ :=
        ih (fun t' ht' => hall t' (by simp [ht'])) srv' (N + 1) s1 hl1 ho1
          (by rw [hh1]; simp [hlen]; ring)
          (by rw [hh1, alternatingPairs_append_pair]; exact halt)
          (by rw [hc1, hc])
      exact ⟨s, a, b, by rw [c]; simp [List.length_cons]; omega, d,
        by rw [e]; simp [List.length_cons]; omega⟩

/-- C2's turn sequence: one creating call (no session id), then `ts` further
calls naming the created session. -/
def sessionRun (u : UserEnv) (t0 : TurnEnv) (ts : List TurnEnv) (srv : ServerState) :
    ServerState :=
  runTurns u t0.freshId ts (chat u t0 srv none).2

/-- Concrete demo fixtures used by the witness theorems. -/
def demoRenv : RetrievalEnv :=
  { getStoreOk := true, search := fun _ => SearchResult.ok [], deleteCommitOk := true }

def demoPrefs : Prefs :=
  { provider := "openai", embedding_model := "text-embedding-3-small", chat_model := "gpt-4" }

def demoGenv : GenEnv :=
  { prefsQueryOk := true, preferences := some demoPrefs, getChatModelOk := true,
    llm := Except.ok "Hello!", commitOk := true, outerCommitOk := true }

def demoTurn (msg : String) : TurnEnv :=
  { freshId := "sess-1", message := msg, sessionCommitOk := true,
    userMsgCommitOk := true, renv := demoRenv, genv := demoGenv,
    aiMsgCommitOk := true, saveOk := true }

def demoUser : UserEnv :=
  { user_id := "alice", has_preferences := true, provider := "openai", apiKeyOk := true }

def emptySrv : ServerState :=
  { checkpoints := [], sessions := [], messages := [], embStore := [] }

theorem demoTurn_success (msg : String) : TurnSuccess (demoTurn msg) :=
  ⟨rfl, rfl, rfl, by simp [demoTurn, demoRenv], rfl, rfl, rfl, rfl,
   ⟨"Hello!", rfl⟩, rfl, rfl, rfl, rfl⟩

theorem demoUser_valid : validUser demoUser :=
  ⟨rfl, Or.inr rfl, rfl⟩

/-- In `_answer_with_rag`, a failed LLM call is swallowed by the generic
handler: the apology is substituted and nothing else changes. -/
theorem answer_with_rag_llm_error (env : GenEnv) (s : ChatState) (e : Unit)
    (h1 : env.prefsQueryOk = true) (h2 : env.preferences.isSome = true)
    (h3 : env.getChatModelOk = true) (h4 : env.llm = Except.error e) :
    answer_with_rag env s = Except.ok { s with current_output := some apologyMsg } := by
  obtain ⟨p, hp⟩ := Option.isSome_iff_exists.mp h2
  unfold answer_with_rag
  rw [h1, hp, h3, h4]
  simp

/-- Any way the generation stage can fail. -/
def GenerationFails (g : GenEnv) : Prop :=
  g.prefsQueryOk = false ∨ g.preferences = none ∨ g.getChatModelOk = false ∨
  (∃ e, g.llm = Except.error e) ∨ g.commitOk = false

/-- When generation fails, `_answer_with_rag` either re-raises (the
`SQLAlchemyError` arm) or returns the input state with the apology substituted
— history and count untouched in either case. -/
theorem answer_with_rag_genfail (g : GenEnv) (s : ChatState)
    (hfail : GenerationFails g) :
    answer_with_rag g s = Except.error PyErr.sqlalchemy ∨
    answer_with_rag g s = Except.ok { s with current_output := some apologyMsg } := by
  unfold answer_with_rag
  cases hq : g.prefsQueryOk with
  | false => left; simp
  | true =>
      cases hpref : g.preferences with
      | none => right; simp
      | some p =>
          cases hm : g.getChatModelOk with
          | false => right; simp
          | true =>
              cases hl : g.llm with
              | error e => right; simp
              | ok txt =>
                  cases hcm : g.commitOk with
                  | false => left; simp
                  | true =>
                      exfalso
                      rcases hfail with h | h | h | ⟨e, h⟩ | h <;>
                        first
                          | exact absurd h (by rw [hq]; simp)
                          | exact absurd h (by rw [hpref]; simp)
                          | exact absurd h (by rw [hm]; simp)
                          | exact absurd h (by rw [hl]; simp)
                          | exact absurd h (by rw [hcm]; simp)

/-- When generation fails, `process` either re-raises or returns the state it
got from retrieval with the apology substituted; the exchange is never
recorded. -/
theorem process_genfail (renv : RetrievalEnv) (genv : GenEnv) (store : List EmbRow)
    (s : ChatState) (hfail : GenerationFails genv) :
    (∃ store' e, process renv genv store s = (store', Except.error e)) ∨
    (∃ store' s1, process renv genv store s = (store', Except.ok s1) ∧
       s1.current_output = some apologyMsg ∧
       s1.internal_history = s.internal_history ∧
       s1.conversation_count = s.conversation_count ∧
       s1.user_id = s.user_id) := by
  rcases hfil : filter_documents renv store s with ⟨store', res⟩
  cases res with
  | error e => exact Or.inl ⟨store', e, by simp [process, hfil]⟩
  | ok s' =>
      obtain ⟨e1, e2, e3, e4, e5, e6⟩ := filter_documents_ok_preserves _ _ _ _ _ hfil
      rcases answer_with_rag_genfail genv s' hfail with ha | ha
      · exact Or.inl ⟨store', PyErr.sqlalchemy, by simp [process, hfil, ha]⟩
      · cases hoc : genv.outerCommitOk with
        | false =>
            exact Or.inl ⟨store', PyErr.sqlalchemy, by simp [process, hfil, ha, hoc]⟩
        | true =>
            exact Or.inr ⟨store', { s' with current_output := some apologyMsg },
              by simp [process, hfil, ha, hoc],
              by simp, by simpa using e1, by simpa using e2, by simpa using e3⟩

/-- Behaviour of `process` when the LLM call fails but everything else succeeds: normal
return with the apology substituted, history and count untouched. -/
theorem process_llm_error (renv : RetrievalEnv) (genv : GenEnv) (store : List EmbRow)
    (s : ChatState) (e : Unit)
    (hr1 : renv.getStoreOk = true) (hr2 : renv.search searchKwargsK ≠ SearchResult.err)
    (hr3 : renv.deleteCommitOk = true)
    (hg1 : genv.prefsQueryOk = true) (hg2 : genv.preferences.isSome = true)
    (hg3 : genv.getChatModelOk = true) (h4 : genv.llm = Except.error e)
    (hg6 : genv.outerCommitOk = true) :
    ∃ store' s1, process renv genv store s = (store', Except.ok s1) ∧
      s1.current_output = some apologyMsg ∧
      s1.internal_history = s.internal_history ∧
      s1.conversation_count = s.conversation_count ∧
      s1.user_id = s.user_id := by
  obtain ⟨store', s', hf⟩ := filter_documents_success renv store s hr1 hr2 hr3
  obtain ⟨e1, e2, e3, e4, e5, e6⟩ := filter_documents_ok_preserves _ _ _ _ _ hf
  have ha := answer_with_rag_llm_error genv s' e hg1 hg2 hg3 h4
  exact ⟨store', { s' with current_output := some apologyMsg },
    by simp [process, hf, ha, hg6],
    by simp, by simpa using e1, by simpa using e2, by simpa using e3⟩

/-- C4: when the chat-model invocation fails (a non-database generation
error) during a turn on an existing owned session, the turn does not abort:
the endpoint still responds 200, the response and the persisted
`current_output` are the fixed apology, no human/ai pair is appended to
`internal_history`, the count is untouched, and the state is persisted. -/
theorem generation_failure_degrades (u : UserEnv) (t : TurnEnv) (srv : ServerState)
    (sid : String) (s0 : ChatState)
    (hu : validUser u)
    (hload : lookupKey srv.checkpoints sid = some s0)
    (hown : s0.user_id = u.user_id)
    (husr : t.userMsgCommitOk = true)
    (hr1 : t.renv.getStoreOk = true)
    (hr2 : t.renv.search searchKwargsK ≠ SearchResult.err)
    (hr3 : t.renv.deleteCommitOk = true)
    (hg1 : t.genv.prefsQueryOk = true) (hg2 : t.genv.preferences.isSome = true)
    (hg3 : t.genv.getChatModelOk = true)
    (hllm : ∃ e, t.genv.llm = Except.error e)
    (hg6 : t.genv.outerCommitOk = true)
    (hai : t.aiMsgCommitOk = true) (hsave : t.saveOk = true) :
    ∃ resp srv' s1,
      chat u t srv (some sid) = (ChatOutcome.ok resp, srv') ∧
      resp.response = some apologyMsg ∧
      lookupKey srv'.checkpoints sid = some s1 ∧
      s1.current_output = some apologyMsg ∧
      s1.internal_history = s0.internal_history ∧
      s1.conversation_count = s0.conversation_count := by
  obtain ⟨hp, hprov, hkey⟩ := hu
  obtain ⟨e, he⟩ := hllm
  obtain ⟨store', s1, hproc, q1, q2, q3, q4⟩ :=
    process_llm_error t.renv t.genv srv.embStore { s0 with current_input := t.message } e
      hr1 hr2 hr3 hg1 hg2 hg3 he hg6
  have hprov' : (u.provider == "google" || u.provider == "openai") = true := by
    rcases hprov with h | h <;> simp [h]
  have hown' : (s0.user_id == u.user_id) = true := by simp [hown]
  refine ⟨{ session_id := sid
            response := s1.current_output
            conversation_count := s1.conversation_count
            context := renderContext s1.current_context },
          { checkpoints := upsert srv.checkpoints sid s1
            sessions := srv.sessions
            messages := (srv.messages ++ [(sid, Msg.mk Role.human t.message)]) ++
              [(sid, Msg.mk Role.ai (s1.current_output.getD ""))]
            embStore := store' },
          s1, ?_, q1, ?_, q1, ?_, ?_⟩
  · simp [chat, hp, hprov', hkey, husr, hai, hsave, hload, hown', hproc]
  · exact lookupKey_upsert_self ..
  · simpa using q2
  · simpa using q3

/-- C5: with zero indexed chunks for the user's scope, `_filter_documents`
returns immediately: empty `current_context`, store untouched, and the result
does not depend on the similarity-search oracle at all — no similarity query
is issued. -/
theorem no_documents_fast_path (env env' : RetrievalEnv) (store : List EmbRow)
    (s : ChatState) (h : chunkCount store s.user_id = 0) :
    filter_documents env store s =
      (store, Except.ok { s with current_context := some [] }) ∧
    filter_documents env store s = filter_documents env' store s := by
  constructor <;> simp [filter_documents, h]

/-- An oracle whose search always raises, used to witness that the fast path
never consults the search. -/
def errSearchRenv : RetrievalEnv :=
  { getStoreOk := true, search := fun _ => SearchResult.err, deleteCommitOk := true }

theorem no_documents_fast_path_witness :
    chunkCount [] (get_initial_state "sess-1" "alice").user_id = 0 ∧
    (filter_documents demoRenv [] (get_initial_state "sess-1" "alice") =
      ([], Except.ok { get_initial_state "sess-1" "alice" with current_context := some [] }) ∧
     filter_documents demoRenv [] (get_initial_state "sess-1" "alice") =
      filter_documents errSearchRenv [] (get_initial_state "sess-1" "alice")) :=
  ⟨rfl, no_documents_fast_path demoRenv errSearchRenv [] (get_initial_state "sess-1" "alice") rfl⟩

/-- C9: `get_chat_model` normalizes the configured chat-model name per
provider: for `"google"` a name lacking the `models/` namespace prefix gets
it (a name already carrying it is unchanged); for `"openai"` the name is
passed through as-is. -/
theorem chat_model_name_normalization (p : Prefs) :
    get_chat_model true (some p) "google" =
      Except.ok { provider := "google"
                  model := if p.chat_model.startsWith "models/" then p.chat_model
                           else "models/" ++ p.chat_model } ∧
    get_chat_model true (some p) "openai" =
      Except.ok { provider := "openai", model := p.chat_model } := by
  constructor <;> rfl

/-- A stored session owned by "alice", used by the concrete scenarios. -/
def storedState : ChatState := get_initial_state "sess-1" "alice"

def srvWithSession : ServerState :=
  { checkpoints := [("sess-1", storedState)], sessions := [("sess-1", "alice")],
    messages := [], embStore := [] }

/-- Generation oracles where the LLM call raises. -/
def failGenv : GenEnv := { demoGenv with llm := Except.error () }

def failTurn (msg : String) : TurnEnv := { demoTurn msg with genv := failGenv }

theorem generation_failure_degrades_witness :
    ∃ resp srv' s1,
      chat demoUser (failTurn "hi") srvWithSession (some "sess-1") =
        (ChatOutcome.ok resp, srv') ∧
      resp.response = some apologyMsg ∧
      lookupKey srv'.checkpoints "sess-1" = some s1 ∧
      s1.current_output = some apologyMsg ∧
      s1.internal_history = storedState.internal_history ∧
      s1.conversation_count = storedState.conversation_count :=
  generation_failure_degrades demoUser (failTurn "hi") srvWithSession "sess-1" storedState
    demoUser_valid rfl rfl rfl rfl (by simp [failTurn, demoTurn, demoRenv]) rfl rfl rfl rfl
    ⟨(), rfl⟩ rfl rfl rfl

/-- C2: a session created by one successful turn followed by any number of
further successful turns persists a state whose `internal_history` has exactly
`2N` entries forming consecutive human/ai pairs and whose
`conversation_count` is `N`, for `N` the number of successful turns. -/
theorem history_integrity (u : UserEnv) (t0 : TurnEnv) (ts : List TurnEnv)
    (srv : ServerState)
    (hu : validUser u) (h0 : TurnSuccess t0) (hts : ∀ t ∈ ts, TurnSuccess t) :
    ∃ s, lookupKey (sessionRun u t0 ts srv).checkpoints t0.freshId = some s ∧
      s.internal_history.length = 2 * (1 + ts.length) ∧
      alternatingPairs s.internal_history = true ∧
      s.conversation_count = 1 + ts.length := by
  obtain ⟨resp, srv', s1, txt, hchat, hllm, hsid, hl1, ho1, hh1, hc1, hframe⟩ :=
    chat_success_create u t0 srv hu h0
  unfold sessionRun
  rw [hchat]
  obtain ⟨s, a, b, c, d, e⟩ :=
    runTurns_invariant u t0.freshId hu ts hts srv' 1 s1 hl1 ho1
      (by rw [hh1]; rfl)
      (by rw [hh1]; rfl)
      hc1
  exact ⟨s, a, c, d, e⟩

theorem history_integrity_witness :
    ∃ s, lookupKey (sessionRun demoUser (demoTurn "hi") [demoTurn "again"]
          emptySrv).checkpoints (demoTurn "hi").freshId = some s ∧
      s.internal_history.length = 2 * (1 + [demoTurn "again"].length) ∧
      alternatingPairs s.internal_history = true ∧
      s.conversation_count = 1 + [demoTurn "again"].length :=
  history_integrity demoUser (demoTurn "hi") [demoTurn "again"] emptySrv
    demoUser_valid (demoTurn_success "hi")
    (fun t ht => by
      simp only [List.mem_singleton] at ht
      exact ht ▸ demoTurn_success "again")

/-- C3 (amended): if the generation stage fails after retrieval succeeded,
the state persisted for the session at the end of the turn is exactly one of:
(a) the prior committed state, unchanged, or (b) a state whose output is the
apology text with `conversation_count` and `internal_history` UNCHANGED from
the prior state (the degrade path does not increment the count); no other
persisted outcome is possible, and `current_output` is never left partially
constructed (it is either the prior output or the whole apology string). -/
theorem atomic_persistence (u : UserEnv) (t : TurnEnv) (srv : ServerState)
    (sid : String) (s0 : ChatState)
    (hload : lookupKey srv.checkpoints sid = some s0)
    (_hret : ∃ store' s', filter_documents t.renv srv.embStore
        { s0 with current_input := t.message } = (store', Except.ok s'))
    (hfail : GenerationFails t.genv) :
    lookupKey (chat u t srv (some sid)).2.checkpoints sid = some s0 ∨
    (∃ s1, lookupKey (chat u t srv (some sid)).2.checkpoints sid = some s1 ∧
       s1.current_output = some apologyMsg ∧
       s1.conversation_count = s0.conversation_count ∧
       s1.internal_history = s0.internal_history) := by
  cases hp : u.has_preferences with
  | false => exact Or.inl (by simp [chat, hp, hload])
  | true =>
  cases hprov : (u.provider == "google" || u.provider == "openai") with
  | false => exact Or.inl (by simp [chat, hp, hprov, hload])
  | true =>
  cases hkey : u.apiKeyOk with
  | false => exact Or.inl (by simp [chat, hp, hprov, hkey, hload])
  | true =>
  cases hbeq : (s0.user_id == u.user_id) with
  | false => exact Or.inl (by simp [chat, hp, hprov, hkey, hload, hbeq])
  | true =>
  cases husr : t.userMsgCommitOk with
  | false => exact Or.inl (by simp [chat, hp, hprov, hkey, hload, hbeq, husr])
  | true =>
  rcases process_genfail t.renv t.genv srv.embStore
      { s0 with current_input := t.message } hfail with
    ⟨store', e, hproc⟩ | ⟨store', s1, hproc, o1, o2, o3, o4⟩
  · exact Or.inl (by simp [chat, hp, hprov, hkey, hload, hbeq, husr, hproc])
  · cases hai : t.aiMsgCommitOk with
    | false => exact Or.inl (by simp [chat, hp, hprov, hkey, hload, hbeq, husr, hproc, hai])
    | true =>
    cases hsave : t.saveOk with
    | false =>
        exact Or.inl (by simp [chat, hp, hprov, hkey, hload, hbeq, husr, hproc, hai, hsave])
    | true =>
        refine Or.inr ⟨s1, ?_, o1, by simpa using o3, by simpa using o2⟩
        simp [chat, hp, hprov, hkey, hload, hbeq, husr, hproc, hai, hsave,
          lookupKey_upsert_self]

/-- C3 counterexample: a concrete turn on which generation fails after
retrieval succeeded, whose persisted state is neither the prior state
unchanged nor an apology state with incremented count — the code's degrade
path substitutes the apology WITHOUT incrementing `conversation_count`. -/
theorem atomic_persistence_counterexample :
    ∃ s1, lookupKey (chat demoUser (failTurn "hi") srvWithSession
        (some "sess-1")).2.checkpoints "sess-1" = some s1 ∧
      s1 ≠ storedState ∧
      s1.conversation_count ≠ storedState.conversation_count + 1 := by
  refine ⟨{ storedState with current_input := "hi", current_context := some [], current_output := some apologyMsg }, rfl, ?_, by decide⟩
  intro h
  have h' := congrArg ChatState.current_output h
  simp [storedState, get_initial_state, apologyMsg] at h'

theorem atomic_persistence_witness :
    lookupKey (chat demoUser (failTurn "hey") srvWithSession
        (some "sess-1")).2.checkpoints "sess-1" = some storedState ∨
    (∃ s1, lookupKey (chat demoUser (failTurn "hey") srvWithSession
        (some "sess-1")).2.checkpoints "sess-1" = some s1 ∧
       s1.current_output = some apologyMsg ∧
       s1.conversation_count = storedState.conversation_count ∧
       s1.internal_history = storedState.internal_history) :=
  atomic_persistence demoUser (failTurn "hey") srvWithSession "sess-1" storedState
    rfl
    ⟨[], { storedState with current_input := "hey", current_context := some [] }, rfl⟩
    (Or.inr (Or.inr (Or.inr (Or.inl ⟨(), rfl⟩))))

/-- C8 (amended): the similarity search is issued with the hardcoded `k = 5`
of the retriever's `search_kwargs`; the session's `retriever_params` snapshot
(whose `k` is 4) is never consulted: the retrieval outcome depends on the
search oracle only at `k = 5`, whatever the state's snapshot says. -/
theorem retriever_k_hardcoded (env env' : RetrievalEnv) (store : List EmbRow)
    (s : ChatState)
    (hg : env.getStoreOk = env'.getStoreOk)
    (hd : env.deleteCommitOk = env'.deleteCommitOk)
    (h5 : env.search 5 = env'.search 5) :
    filter_documents env store s = filter_documents env' store s ∧
    searchKwargsK = 5 ∧
    (∀ sid uid, (get_initial_state sid uid).retriever_params.k = 4) := by
  refine ⟨?_, rfl, fun _ _ => rfl⟩
  unfold filter_documents searchKwargsK
  rw [hg, hd, h5]

def docA : Doc := { page_content := "A", metadata := [] }

def docB : Doc := { page_content := "B", metadata := [] }

/-- A search oracle answering `docA` when asked for 4 neighbours and `docB`
for any other request size: it distinguishes which `k` the code sends. -/
def kProbeRenv : RetrievalEnv :=
  { getStoreOk := true
    search := fun n => if n == 4 then SearchResult.ok [docA] else SearchResult.ok [docB]
    deleteCommitOk := true }

def oneRow : EmbRow := { user_id := "alice", document := "chunk", embedding := [1, 0] }

/-- C8 counterexample: the session snapshot says `k = 4`, yet the search is
answered at the probe's non-4 branch — the request used `k = 5`, not the
snapshot's `k`. -/
theorem retriever_k_counterexample :
    (get_initial_state "sess-1" "alice").retriever_params.k = 4 ∧
    filter_documents kProbeRenv [oneRow] (get_initial_state "sess-1" "alice") =
      ([oneRow], Except.ok { get_initial_state "sess-1" "alice" with current_context := some [docB] }) ∧
    docB ≠ docA :=
  ⟨rfl, rfl, by decide⟩

/-- An oracle answering `docB` at every `k` — it agrees with `kProbeRenv`
at `k = 5` but disagrees at the snapshot's `k = 4`. -/
def constBRenv : RetrievalEnv :=
  { getStoreOk := true, search := fun _ => SearchResult.ok [docB], deleteCommitOk := true }

theorem retriever_k_hardcoded_witness :
    filter_documents kProbeRenv [oneRow] (get_initial_state "sess-1" "alice") =
      filter_documents constBRenv [oneRow] (get_initial_state "sess-1" "alice") ∧
    searchKwargsK = 5 ∧
    (∀ sid uid, (get_initial_state sid uid).retriever_params.k = 4) :=
  retriever_k_hardcoded kProbeRenv constBRenv [oneRow]
    (get_initial_state "sess-1" "alice") rfl rfl rfl

/-- Vector rows for the dimension-mismatch scenario: "alice" has stale
vectors, "bob" has unrelated ones. -/
def aliceRow : EmbRow := { user_id := "alice", document := "old chunk", embedding := [1, 2] }

def bobRow : EmbRow := { user_id := "bob", document := "other", embedding := [3] }

/-- Oracles where the similarity search raises the dimension-mismatch
exception. -/
def mismatchRenv : RetrievalEnv :=
  { getStoreOk := true, search := fun _ => SearchResult.dimMismatch, deleteCommitOk := true }

def mismatchTurn (msg : String) : TurnEnv := { demoTurn msg with renv := mismatchRenv }

def srvMismatch : ServerState :=
  { checkpoints := [("sess-1", storedState)], sessions := [("sess-1", "alice")],
    messages := [], embStore := [aliceRow, bobRow] }

/-- C1 (failing input): on a dimension-mismatch turn the user's vectors are
purged and the retrieved context is empty, but the state machine does NOT
short-circuit to persistence: `_answer_with_rag` still runs, the LLM is
invoked, its answer overwrites the canned advisory in `current_output`, the
exchange is recorded, and the advisory never reaches the response. -/
theorem dimension_mismatch_no_short_circuit :
    (chat demoUser (mismatchTurn "hi") srvMismatch (some "sess-1")).2.embStore = [bobRow] ∧
    lookupKey (chat demoUser (mismatchTurn "hi") srvMismatch (some "sess-1")).2.checkpoints
        "sess-1" =
      some { storedState with
              current_input := "hi"
              current_context := some []
              current_output := some "Hello!"
              conversation_count := 1
              internal_history := [Msg.mk Role.human "hi", Msg.mk Role.ai "Hello!"] } ∧
    (chat demoUser (mismatchTurn "hi") srvMismatch (some "sess-1")).1 =
      ChatOutcome.ok { session_id := "sess-1", response := some "Hello!",
                       conversation_count := 1, context := [] } ∧
    some "Hello!" ≠ some dimensionAdvisory :=
  ⟨rfl, rfl, rfl, by decide⟩

/-- The same requester profile as `demoUser` but a different principal. -/
def bobUser : UserEnv :=
  { user_id := "bob", has_preferences := true, provider := "openai", apiKeyOk := true }

/-- C6 (failing input): a turn naming a session owned by someone else, and a
turn naming an unknown session, both leave the server state untouched and
return no content — but the HTTP status is 500, not 403/404: the
endpoint's blanket `except Exception` handler swallows the inner
`HTTPException(403)` / `HTTPException(404)` and re-raises a 500. -/
theorem ownership_and_absence_wrapped_to_500 :
    chat bobUser (demoTurn "hi") srvWithSession (some "sess-1") =
      (ChatOutcome.httpError 500, srvWithSession) ∧
    chat demoUser (demoTurn "hi") srvWithSession (some "missing") =
      (ChatOutcome.httpError 500, srvWithSession) :=
  ⟨rfl, rfl⟩

/-- C7: a turn request without a session id starts from a state with empty
history and zero count under the generated fresh id; two such requests with
distinct generated ids never share server state — each persisted session
holds exactly its own single exchange, and the first session's record is
untouched by the second request. -/
theorem fresh_session_independence (u : UserEnv) (t1 t2 : TurnEnv) (srv : ServerState)
    (hu : validUser u) (h1 : TurnSuccess t1) (h2 : TurnSuccess t2)
    (hne : t1.freshId ≠ t2.freshId) :
    ∃ resp1 srv1 resp2 srv2 s1 s2 txt1 txt2,
      chat u t1 srv none = (ChatOutcome.ok resp1, srv1) ∧
      chat u t2 srv1 none = (ChatOutcome.ok resp2, srv2) ∧
      resp1.session_id = t1.freshId ∧
      resp2.session_id = t2.freshId ∧
      resp1.session_id ≠ resp2.session_id ∧
      t1.genv.llm = Except.ok txt1 ∧
      t2.genv.llm = Except.ok txt2 ∧
      lookupKey srv2.checkpoints t2.freshId = some s2 ∧
      s2.internal_history = [Msg.mk Role.human t2.message, Msg.mk Role.ai txt2] ∧
      s2.conversation_count = 1 ∧
      lookupKey srv2.checkpoints t1.freshId = some s1 ∧
      s1.internal_history = [Msg.mk Role.human t1.message, Msg.mk Role.ai txt1] ∧
      s1.conversation_count = 1 := by
  obtain ⟨r1, srv1, s1, txt1, hchat1, hllm1, hsid1, hl1, ho1, hh1, hc1, hframe1⟩ :=
    chat_success_create u t1 srv hu h1
  obtain ⟨r2, srv2, s2, txt2, hchat2, hllm2, hsid2, hl2, ho2, hh2, hc2, hframe2⟩ :=
    chat_success_create u t2 srv1 hu h2
  refine ⟨r1, srv1, r2, srv2, s1, s2, txt1, txt2, hchat1, hchat2, hsid1, hsid2,
    ?_, hllm1, hllm2, hl2, hh2, hc2, ?_, hh1, hc1⟩
  · rw [hsid1, hsid2]; exact hne
  · rw [hframe2 t1.freshId hne]; exact hl1

def demoTurnB (msg : String) : TurnEnv := { demoTurn msg with freshId := "sess-2" }

theorem demoTurnB_success (msg : String) : TurnSuccess (demoTurnB msg) :=
  ⟨rfl, rfl, rfl, by simp [demoTurnB, demoTurn, demoRenv], rfl, rfl, rfl, rfl,
   ⟨"Hello!", rfl⟩, rfl, rfl, rfl, rfl⟩

theorem fresh_session_independence_witness :
    ∃ resp1 srv1 resp2 srv2 s1 s2 txt1 txt2,
      chat demoUser (demoTurn "first") emptySrv none = (ChatOutcome.ok resp1, srv1) ∧
      chat demoUser (demoTurnB "second") srv1 none = (ChatOutcome.ok resp2, srv2) ∧
      resp1.session_id = (demoTurn "first").freshId ∧
      resp2.session_id = (demoTurnB "second").freshId ∧
      resp1.session_id ≠ resp2.session_id ∧
      (demoTurn "first").genv.llm = Except.ok txt1 ∧
      (demoTurnB "second").genv.llm = Except.ok txt2 ∧
      lookupKey srv2.checkpoints (demoTurnB "second").freshId = some s2 ∧
      s2.internal_history = [Msg.mk Role.human "second", Msg.mk Role.ai txt2] ∧
      s2.conversation_count = 1 ∧
      lookupKey srv2.checkpoints (demoTurn "first").freshId = some s1 ∧
      s1.internal_history = [Msg.mk Role.human "first", Msg.mk Role.ai txt1] ∧
      s1.conversation_count = 1 :=
  fresh_session_independence demoUser (demoTurn "first") (demoTurnB "second") emptySrv
    demoUser_valid (demoTurn_success "first") (demoTurnB_success "second") (by decide)

/-- C10: `PostgresChatCheckpointer.save` persists, keyed by the given session
id, a record holding exactly the eight `stateFields` of the input mapping —
any other key present in the input is not persisted — and a subsequent
`load` of the same session id returns exactly that eight-field record. -/
theorem checkpointer_save_exact_fields {α : Type} (db : List (String × List (String × α)))
    (sid : String) (state : List (String × α))
    (h : ∀ k ∈ stateFields, (lookupKey state k).isSome = true) :
    ∃ rec, checkpointer_save db sid state = some (upsert db sid rec) ∧
      checkpointer_load (upsert db sid rec) sid = some rec ∧
      rec.map Prod.fst = stateFields ∧
      (∀ k ∈ stateFields, lookupKey rec k = lookupKey state k) ∧
      (∀ k, k ∉ stateFields → lookupKey rec k = none) := by
  obtain ⟨v1, h1⟩ := Option.isSome_iff_exists.mp (h "current_input" (by simp [stateFields]))
  obtain ⟨v2, h2⟩ := Option.isSome_iff_exists.mp (h "internal_history" (by simp [stateFields]))
  obtain ⟨v3, h3⟩ := Option.isSome_iff_exists.mp (h "current_output" (by simp [stateFields]))
  obtain ⟨v4, h4⟩ := Option.isSome_iff_exists.mp (h "current_context" (by simp [stateFields]))
  obtain ⟨v5, h5⟩ := Option.isSome_iff_exists.mp (h "session_id" (by simp [stateFields]))
  obtain ⟨v6, h6⟩ := Option.isSome_iff_exists.mp (h "retriever_params" (by simp [stateFields]))
  obtain ⟨v7, h7⟩ := Option.isSome_iff_exists.mp (h "conversation_count" (by simp [stateFields]))
  obtain ⟨v8, h8⟩ := Option.isSome_iff_exists.mp (h "user_id" (by simp [stateFields]))
  refine ⟨[("current_input", v1), ("internal_history", v2), ("current_output", v3),
           ("current_context", v4), ("session_id", v5), ("retriever_params", v6),
           ("conversation_count", v7), ("user_id", v8)], ?_, ?_, rfl, ?_, ?_⟩
  · simp [checkpointer_save, stateFields, List.mapM, List.mapM.loop,
      h1, h2, h3, h4, h5, h6, h7, h8]
  · exact lookupKey_upsert_self ..
  · intro k hk
    simp only [stateFields, List.mem_cons, List.not_mem_nil, or_false] at hk
    rcases hk with rfl | rfl | rfl | rfl | rfl | rfl | rfl | rfl
    · rw [h1]; rfl
    · rw [h2]; rfl
    · rw [h3]; rfl
    · rw [h4]; rfl
    · rw [h5]; rfl
    · rw [h6]; rfl
    · rw [h7]; rfl
    · rw [h8]; rfl
  · intro k hk
    exact lookupKey_eq_none_of_not_mem_keys _ k (by simpa [stateFields] using hk)

/-- A concrete untyped state mapping carrying one extra key beyond the eight
persisted fields. -/
def demoStateDict : List (String × Nat) :=
  [("current_input", 1), ("internal_history", 2), ("current_output", 3),
   ("current_context", 4), ("session_id", 5), ("retriever_params", 6),
   ("conversation_count", 7), ("user_id", 8), ("extra_key", 9)]

theorem checkpointer_save_exact_fields_witness :
    ∃ rec, checkpointer_save ([] : List (String × List (String × Nat))) "sess-1" demoStateDict =
        some (upsert [] "sess-1" rec) ∧
      checkpointer_load (upsert ([] : List (String × List (String × Nat))) "sess-1" rec) "sess-1" =
        some rec ∧
      rec.map Prod.fst = stateFields ∧
      (∀ k ∈ stateFields, lookupKey rec k = lookupKey demoStateDict k) ∧
      (∀ k, k ∉ stateFields → lookupKey rec k = none) :=
  checkpointer_save_exact_fields [] "sess-1" demoStateDict (by decide)

end RagChat
